import Mathlib

/-!
Shallow embedding of the pipeline orchestrator (`orchestrator.py`) of the
llm-orchestrator repository, together with theorems settling the claims of
the specification against it.

Modelling conventions:
* Python strings are Lean `String`s; "byte-identical" artifacts are equal
  strings.
* The filesystem visible to one run is the triple of artifact slots of the
  workspace directory (`input.txt`, `output.txt`, `input.pdf`), each an
  `Option String` (`none` = the file does not exist).
* External effects are oracles supplied in a `PipelineEnv`: the value of the
  `GOOGLE_API_KEY` environment variable, the plan returned by the LLM
  planner (`get_llm_plan`), and per-invocation container behaviour (exit
  status and the transformation the container applies to the workspace
  slots).  The name created by `tempfile.mkdtemp` is the oracle `temp_dir`.
* Python exceptions inside the `try:` body are an `Except` value; the
  `except Exception` handler and the `finally:` cleanup are applied
  explicitly where the source applies them.
* Each call of `run_docker_task` made by the step loop is recorded as an
  `Invocation` carrying the slot state when the call was made and when it
  returned, so that temporal claims about the run can be stated.
-/

namespace Orch

/-- Python truthiness of an optional environment-variable string:
`None` and the empty string are falsy. -/
def pyTruthy : Option String → Bool
  | none => false
  | some s => !(s == "")

/-- One entry of `SERVICE_INFO`: image name, whether the service needs the
`GOOGLE_API_KEY`, and its description. -/
structure ServiceDetails where
  image : String
  needs_api_key : Bool
  description : String
deriving DecidableEq

/-- The task registry `SERVICE_INFO` of `orchestrator.py`. -/
def SERVICE_INFO : List (String × ServiceDetails) :=
  [("summarizer-service",
     { image := "summarizer-app", needs_api_key := true,
       description := "Generates a concise summary of the input text." }),
   ("translator-service",
     { image := "translator-app", needs_api_key := true,
       description := "Translates text into a specified target language." }),
   ("anonymizer-service",
     { image := "anonymizer-app", needs_api_key := true,
       description := "Attempts to identify and mask PII (names, dates, addresses, MRNs, etc.) in text." }),
   ("med-term-translator-service",
     { image := "med-term-translator-app", needs_api_key := true,
       description := "Attempts to simplify complex medical terms in text into layperson\x27s language." })]

/-- `step in SERVICE_INFO`: the identifier is a key of the registry. -/
def knownService (s : String) : Bool := (SERVICE_INFO.lookup s).isSome

/-! ### `extract_language` (the Parameter Extractor) -/

/-- A character matched by Python `\w` (modelled over ASCII):
letters, digits and underscore. -/
def isWordChar (c : Char) : Bool := c.isAlphanum || c == '_'

/-- Case-insensitive literal-pattern match: the pattern (given in lower
case) against a prefix of the input; returns the rest of the input. -/
def stripCaseless : List Char → List Char → Option (List Char)
  | [], cs => some cs
  | _ :: _, [] => none
  | p :: ps, c :: cs => if c.toLower == p then stripCaseless ps cs else none

/-- Try to match the regex `translate to (\w+)` (IGNORECASE) at the head of
the character list; on a match return the capture group. -/
def matchTranslateAt (cs : List Char) : Option (List Char) :=
  match stripCaseless "translate to ".data cs with
  | none => none
  | some rest =>
    let w := rest.takeWhile isWordChar
    if w.isEmpty then none else some w

/-- `re.search` of the pattern `translate to (\w+)` with IGNORECASE:
leftmost match, returning the capture group. -/
def searchTranslate : List Char → Option (List Char)
  | [] => none
  | c :: cs =>
    match matchTranslateAt (c :: cs) with
    | some w => some w
    | none => searchTranslate cs

/-- The `lang_map` lookup table of `extract_language`. -/
def lang_map : List (String × String) :=
  [("german", "de"), ("french", "fr"), ("spanish", "es"),
   ("japanese", "ja"), ("english", "en")]

/-- `extract_language` of `orchestrator.py`: find the first
`translate to <word>` phrase, lower-case the word, look it up in
`lang_map`; default to `"en"` when there is no match or the name is
unknown. -/
def extract_language (user_request : String) : String :=
  match searchTranslate user_request.data with
  | none => "en"
  | some w =>
    let lang_name := String.mk (w.map Char.toLower)
    (lang_map.lookup lang_name).getD "en"

/-! ### Workspace slots and the Task Executor -/

/-- The artifact slots of the per-run workspace directory.  `none` means
the file does not exist. -/
structure Slots where
  input_txt : Option String
  output_txt : Option String
  input_pdf : Option String
deriving DecidableEq

/-- Oracle describing what one `docker run` invocation does:
whether the `docker` binary is available (otherwise `FileNotFoundError`),
the exit status of the container, and the transformation the container applies
to the workspace slots while it runs. -/
structure ContainerBehavior where
  docker_ok : Bool
  exit_zero : Bool
  effect : Slots → Slots

/-- Result of one `run_docker_task` call: the returned boolean, whether
`subprocess.run` (the container launch) was reached, the environment
variables passed to the container, the printed error messages, and the
workspace slots when the call returns. -/
structure ExecResult where
  success : Bool
  attempted_launch : Bool
  passed_env : List (String × String)
  log : List String
  slots : Slots

/-- The message printed when a service needs the API key but
`GOOGLE_API_KEY` is unset. -/
def missingKeyMsg (service_name : String) : String :=
  "[Orchestrator] Error: Service \x27" ++ service_name ++
    "\x27 needs API key, but GOOGLE_API_KEY is not loaded/found. Skipping container."

/-- `run_docker_task` of `orchestrator.py`.  `google_api_key` is the value
`os.getenv("GOOGLE_API_KEY")`, `behavior` the oracle for the container run
this call would perform. -/
def run_docker_task (google_api_key : Option String) (behavior : ContainerBehavior)
    (service_name : String) (env_vars : List (String × String)) (slots : Slots) :
    ExecResult :=
  match SERVICE_INFO.lookup service_name with
  | none =>
    { success := false, attempted_launch := false, passed_env := [],
      log := ["[Orchestrator] Error: Unknown service \x27" ++ service_name ++ "\x27. Skipping."],
      slots := slots }
  | some service_details =>
    if service_details.needs_api_key && !(pyTruthy google_api_key) then
      { success := false, attempted_launch := false, passed_env := [],
        log := [missingKeyMsg service_name], slots := slots }
    else
      let final_env_vars :=
        if service_details.needs_api_key then
          env_vars ++ [("GOOGLE_API_KEY", google_api_key.getD "")]
        else env_vars
      if behavior.docker_ok then
        { success := behavior.exit_zero, attempted_launch := true,
          passed_env := final_env_vars, log := [],
          slots := behavior.effect slots }
      else
        { success := false, attempted_launch := true, passed_env := final_env_vars,
          log := ["[Orchestrator] Error: \x27docker\x27 command not found. Is Docker installed and in PATH?"],
          slots := slots }

/-! ### The Pipeline Sequencer (`run_pipeline`) -/

/-- `f.read(n)` on a text file: at most `n` characters of its content. -/
def read_at_most (n : Nat) (s : String) : String := String.mk (s.data.take n)

/-- The oracles one `run_pipeline` call consumes. -/
structure PipelineEnv where
  /-- `os.getenv("GOOGLE_API_KEY")` (via `load_dotenv`). -/
  google_api_key : Option String
  /-- What `get_llm_plan(user_request)` returns (`none` = planner failure). -/
  llm_plan : Option (List String)
  /-- Behaviour of the container run of loop iteration `i`. -/
  docker : Nat → ContainerBehavior
  /-- The directory name `tempfile.mkdtemp(prefix="llm_orch_run_")` allocates. -/
  temp_dir : String
  /-- `os.path.exists` for paths outside the workspace. -/
  path_exists : String → Bool
  /-- Contents of a host file (used only by the PDF-copy branch). -/
  read_file : String → String

/-- One recorded call of `run_docker_task` from the step loop. -/
structure Invocation where
  service : String
  slots_before : Slots
  slots_after : Slots
  success : Bool
deriving DecidableEq

/-- How the `for` loop over the validated steps ended:
normally (`ok`), by the early `return` of a failed step (`failed`), or by a
raised exception propagating out of the loop (`raised`). -/
inductive LoopResult where
  | ok (slots : Slots)
  | failed (diagnostic : String)
  | raised (message : String)
deriving DecidableEq

/-- The loop-invariant context of the step loop. -/
structure StepCtx where
  google_api_key : Option String
  docker : Nat → ContainerBehavior
  user_request : String
  temp_dir : String
  is_first_step_pdf : Bool

/-- Message of the `FileNotFoundError` raised when the previous step left
no output artifact behind. -/
def chainMsg (ctx : StepCtx) (service_name : String) : String :=
  "Input file \x27" ++ ctx.temp_dir ++ "/input.txt\x27 missing for step " ++
    service_name ++ ". Expected output from previous step."

/-- The chaining prologue of loop iteration `i` (lines 238-245):
`if i > 0 or not is_first_step_pdf:` rename `output.txt` to `input.txt`
when it exists, else `raise FileNotFoundError` when `i > 0`. -/
def chainInput (ctx : StepCtx) (service_name : String) (i : Nat) (slots : Slots) :
    Except String Slots :=
  if 0 < i ∨ ctx.is_first_step_pdf = false then
    match slots.output_txt with
    | some o => .ok { slots with input_txt := some o, output_txt := none }
    | none =>
      if 0 < i then .error (chainMsg ctx service_name) else .ok slots
  else .ok slots

/-- The diagnostic string built when step `service_name` fails (lines
257-267): names the step, and appends up to 500 characters of
`output.txt` when that file exists. -/
def failDetail (service_name : String) (out : Option String) : String :=
  "Pipeline failed at step " ++ service_name ++
    (match out with
     | some last_output =>
       ". Last output/error from container:\n---\n" ++ read_at_most 500 last_output ++ "\n---"
     | none => ".")

/-- The extra environment variables of one step: `TARGET_LANG` for the
translator (lines 247-252). -/
def stepEnvVars (ctx : StepCtx) (service_name : String) : List (String × String) :=
  if service_name == "translator-service" then
    [("TARGET_LANG", extract_language ctx.user_request)]
  else []

/-- The `run_docker_task(service_name, temp_dir, step_env_vars)` call of
loop iteration `i`. -/
def execStep (ctx : StepCtx) (i : Nat) (service_name : String) (slots1 : Slots) : ExecResult :=
  run_docker_task ctx.google_api_key (ctx.docker i) service_name
    (stepEnvVars ctx service_name) slots1

/-- The `for i, service_name in enumerate(valid_steps)` loop of
`run_pipeline`, returning how it ended and the list of `run_docker_task`
calls it made, in order. -/
def runSteps (ctx : StepCtx) : List String → Nat → Slots → LoopResult × List Invocation
  | [], _, slots => (.ok slots, [])
  | service_name :: rest, i, slots =>
    match chainInput ctx service_name i slots with
    | .error msg => (.raised msg, [])
    | .ok slots1 =>
      let r := execStep ctx i service_name slots1
      if r.success then
        let next := runSteps ctx rest (i + 1) r.slots
        (next.1, ⟨service_name, slots1, r.slots, r.success⟩ :: next.2)
      else
        (.failed (failDetail service_name r.slots.output_txt),
         [⟨service_name, slots1, r.slots, r.success⟩])

/-- The final-collection diagnostic (lines 275-282): `output.txt` missing
after the last step, with up to 500 characters of `input.txt` appended
when that file exists and the plan had more than one step. -/
def finalMissingMsg (valid_steps : List String) (slots : Slots) : String :=
  let err0 := "Final output file (\x27output.txt\x27) is missing after the last step completion."
  match slots.input_txt with
  | some prev =>
    if 1 < valid_steps.length then
      err0 ++ "\nContent of input file for the failed last step:\n---\n" ++
        read_at_most 500 prev ++ "\n---"
    else err0
  | none => err0

/-- Turn the loop result into the `(final, error)` pair `run_pipeline`
returns: the `except Exception` handler wraps a raised message in
`"Pipeline failed: "`. -/
def assembleResult (valid_steps : List String) : LoopResult → Option String × Option String
  | .failed d => (none, some d)
  | .raised m => (none, some ("Pipeline failed: " ++ m))
  | .ok slots =>
    match slots.output_txt with
    | some final_result => (some final_result, none)
    | none => (none, some (finalMissingMsg valid_steps slots))

/-- The `finally:` clause: `if temp_dir and os.path.exists(temp_dir):
shutil.rmtree(temp_dir, ignore_errors=True)`. -/
def finallyCleanup (ws_exists : Bool) : Bool :=
  if ws_exists then false else ws_exists

/-- Everything observable about one `run_pipeline` call: the returned
pair, the validated steps, whether the workspace directory was ever
created and whether it still exists when the call returns, the
`is_first_step_pdf` test value, whether the PDF staging branch ran or its
`ValueError` was raised, and the recorded `run_docker_task` calls. -/
structure RunReport where
  result : Option String × Option String
  validated : List String
  ws_created : Bool
  ws_exists_after : Bool
  is_first_step_pdf : Bool
  pdf_copied : Bool
  pdf_error_raised : Bool
  invocations : List Invocation

/-- A report for the early `return`s taken before `tempfile.mkdtemp`. -/
def emptyReport (result : Option String × Option String) : RunReport :=
  { result := result, validated := [], ws_created := false, ws_exists_after := false,
    is_first_step_pdf := false, pdf_copied := false, pdf_error_raised := false,
    invocations := [] }

def apiKeyMsg : String := "LLM Engine API Key (GOOGLE_API_KEY) is not configured (check .env)."

def planFailMsg : String := "Failed to get a valid plan from LLM."

def noServicesMsg : String := "LLM plan contains no known/actionable services."

def pdfMissingMsg : String :=
  "PDF Reader is the first step, but a valid input PDF file path was not provided."

/-- The text staged into `input.txt` when the first step is not the PDF
reader (lines 224-232): the supplied content when it is truthy, the empty
string otherwise. -/
def initialText : Option String → String
  | some c => if c == "" then "" else c
  | none => ""

/-- Report of a run whose PDF staging raised `ValueError` (caught by
`except Exception`, cleaned up by `finally`). -/
def pdfFailReport (valid_steps : List String) : RunReport :=
  { result := (none, some ("Pipeline failed: " ++ pdfMissingMsg)),
    validated := valid_steps, ws_created := true, ws_exists_after := finallyCleanup true,
    is_first_step_pdf := true, pdf_copied := false, pdf_error_raised := true,
    invocations := [] }

/-- The part of `run_pipeline` from `tempfile.mkdtemp` (line 206) to the
end: staging, the step loop, collection, exception handling, cleanup. -/
def runWithWorkspace (env : PipelineEnv) (user_request : String)
    (initial_input_content initial_input_filepath : Option String)
    (valid_steps : List String) : RunReport :=
  let is_first_step_pdf : Bool := valid_steps.head? == some "pdf-reader-service"
  let ctx : StepCtx :=
    { google_api_key := env.google_api_key, docker := env.docker,
      user_request := user_request, temp_dir := env.temp_dir,
      is_first_step_pdf := is_first_step_pdf }
  if is_first_step_pdf then
    match initial_input_filepath with
    | some path =>
      if env.path_exists path then
        let slots0 : Slots :=
          { input_txt := none, output_txt := none, input_pdf := some (env.read_file path) }
        { result := assembleResult valid_steps (runSteps ctx valid_steps 0 slots0).1,
          validated := valid_steps, ws_created := true, ws_exists_after := finallyCleanup true,
          is_first_step_pdf := is_first_step_pdf, pdf_copied := true, pdf_error_raised := false,
          invocations := (runSteps ctx valid_steps 0 slots0).2 }
      else pdfFailReport valid_steps
    | none => pdfFailReport valid_steps
  else
    let slots0 : Slots :=
      { input_txt := some (initialText initial_input_content), output_txt := none,
        input_pdf := none }
    { result := assembleResult valid_steps (runSteps ctx valid_steps 0 slots0).1,
      validated := valid_steps, ws_created := true, ws_exists_after := finallyCleanup true,
      is_first_step_pdf := is_first_step_pdf, pdf_copied := false, pdf_error_raised := false,
      invocations := (runSteps ctx valid_steps 0 slots0).2 }

/-- `run_pipeline` of `orchestrator.py`.  The early `return`s (missing
API key, planner failure, falsy plan, no known services) happen before
the workspace is created; `runWithWorkspace` models the rest. -/
def run_pipeline (env : PipelineEnv) (user_request : String)
    (initial_input_content initial_input_filepath : Option String) : RunReport :=
  -- `if not GOOGLE_API_KEY: return None, "LLM Engine API Key ..."`
  if pyTruthy env.google_api_key then
    match env.llm_plan with
    | none => emptyReport (none, some planFailMsg)
    | some plan =>
      -- `if not plan:` — an empty list is falsy in Python
      if plan = [] then emptyReport (none, some planFailMsg)
      else
        if plan.filter knownService = [] then emptyReport (none, some noServicesMsg)
        else runWithWorkspace env user_request initial_input_content initial_input_filepath
               (plan.filter knownService)
  else emptyReport (none, some apiKeyMsg)

/-! ### Substring machinery (used to state "the diagnostic names step X") -/

/-- `sub` is a prefix of `l` (boolean test). -/
def isPrefB : List Char → List Char → Bool
  | [], _ => true
  | _ :: _, [] => false
  | a :: as, b :: bs => a == b && isPrefB as bs

/-- `sub` occurs contiguously somewhere inside `l` (boolean substring test). -/
def substrB (sub : List Char) : List Char → Bool
  | [] => sub.isEmpty
  | c :: cs => isPrefB sub (c :: cs) || substrB sub cs

lemma isPrefB_append (l t : List Char) : isPrefB l (l ++ t) = true := by
  induction l with
  | nil => rfl
  | cons a as ih => simp [isPrefB, ih]

lemma substrB_of_isPrefB {sub l : List Char} (h : isPrefB sub l = true) :
    substrB sub l = true := by
  cases l with
  | nil => cases sub with
    | nil => rfl
    | cons a as => cases h
  | cons c cs => simp [substrB, h]

lemma substrB_cons_of {sub : List Char} (c : Char) {cs : List Char}
    (h : substrB sub cs = true) : substrB sub (c :: cs) = true := by
  simp [substrB, h]

lemma substrB_of_append (pre sub suf : List Char) :
    substrB sub (pre ++ (sub ++ suf)) = true := by
  induction pre with
  | nil => exact substrB_of_isPrefB (isPrefB_append sub suf)
  | cons c cs ih => exact substrB_cons_of c ih

lemma string_data_append (s t : String) : (s ++ t).data = s.data ++ t.data := rfl

/-- The failure diagnostic always contains the identifier of the failing step. -/
lemma substrB_failDetail (svc : String) (out : Option String) :
    substrB svc.data (failDetail svc out).data = true := by
  unfold failDetail
  rw [string_data_append, string_data_append, List.append_assoc]
  exact substrB_of_append _ _ _

/-! ### Facts about `chainInput` and `runSteps` -/

lemma chainInput_pos_some (ctx : StepCtx) (svc : String) (i : Nat) (slots : Slots) (o : String)
    (hi : 0 < i) (ho : slots.output_txt = some o) :
    chainInput ctx svc i slots = .ok { slots with input_txt := some o, output_txt := none } := by
  unfold chainInput
  rw [if_pos (Or.inl hi), ho]

lemma chainInput_pos_none (ctx : StepCtx) (svc : String) (i : Nat) (slots : Slots)
    (hi : 0 < i) (ho : slots.output_txt = none) :
    chainInput ctx svc i slots = .error (chainMsg ctx svc) := by
  unfold chainInput
  rw [if_pos (Or.inl hi), ho]
  simp [Nat.pos_iff_ne_zero.mp hi]

lemma chainInput_zero_no_output (ctx : StepCtx) (svc : String) (slots : Slots)
    (ho : slots.output_txt = none) :
    chainInput ctx svc 0 slots = .ok slots := by
  unfold chainInput
  rw [ho]
  split <;> simp

lemma chainInput_ok_inv (ctx : StepCtx) (svc : String) (i : Nat) (slots slots1 : Slots)
    (hi : 0 < i) (h : chainInput ctx svc i slots = .ok slots1) :
    ∃ o, slots.output_txt = some o ∧
      slots1 = { slots with input_txt := some o, output_txt := none } := by
  cases ho : slots.output_txt with
  | none => rw [chainInput_pos_none ctx svc i slots hi ho] at h; cases h
  | some o =>
    rw [chainInput_pos_some ctx svc i slots o hi ho] at h
    exact ⟨o, rfl, (Except.ok.inj h).symm⟩

lemma chainInput_isOk (ctx : StepCtx) (svc : String) (i : Nat) (slots : Slots)
    (h : 0 < i → slots.output_txt ≠ none) :
    ∃ slots1, chainInput ctx svc i slots = .ok slots1 := by
  rcases Nat.eq_zero_or_pos i with hi | hi
  · subst hi
    cases ho : slots.output_txt with
    | none => exact ⟨slots, chainInput_zero_no_output ctx svc slots ho⟩
    | some o =>
      unfold chainInput
      rw [ho]
      split
      · exact ⟨_, rfl⟩
      · exact ⟨_, rfl⟩
  · cases ho : slots.output_txt with
    | none => exact absurd ho (h hi)
    | some o => exact ⟨_, chainInput_pos_some ctx svc i slots o hi ho⟩

lemma runSteps_nil (ctx : StepCtx) (i : Nat) (slots : Slots) :
    runSteps ctx [] i slots = (.ok slots, []) := rfl

lemma runSteps_cons_err (ctx : StepCtx) (svc : String) (rest : List String) (i : Nat)
    (slots : Slots) (msg : String) (hc : chainInput ctx svc i slots = .error msg) :
    runSteps ctx (svc :: rest) i slots = (.raised msg, []) := by
  simp only [runSteps, hc]

lemma runSteps_cons_ok_succ (ctx : StepCtx) (svc : String) (rest : List String) (i : Nat)
    (slots slots1 : Slots) (hc : chainInput ctx svc i slots = .ok slots1)
    (hs : (execStep ctx i svc slots1).success = true) :
    runSteps ctx (svc :: rest) i slots =
      ((runSteps ctx rest (i + 1) (execStep ctx i svc slots1).slots).1,
        ⟨svc, slots1, (execStep ctx i svc slots1).slots, true⟩ ::
          (runSteps ctx rest (i + 1) (execStep ctx i svc slots1).slots).2) := by
  simp only [runSteps, hc, hs, if_true]

lemma runSteps_cons_ok_fail (ctx : StepCtx) (svc : String) (rest : List String) (i : Nat)
    (slots slots1 : Slots) (hc : chainInput ctx svc i slots = .ok slots1)
    (hs : (execStep ctx i svc slots1).success = false) :
    runSteps ctx (svc :: rest) i slots =
      (.failed (failDetail svc (execStep ctx i svc slots1).slots.output_txt),
        [⟨svc, slots1, (execStep ctx i svc slots1).slots, false⟩]) := by
  simp only [runSteps, hc, hs, if_false, Bool.false_eq_true]

/-- The first recorded invocation of the loop: its slot snapshots are the
post-chaining slots and the result of the executor on them. -/
lemma runSteps_head (ctx : StepCtx) (steps : List String) (i : Nat) (slots : Slots)
    (inv : Invocation) (h : ((runSteps ctx steps i slots).2).head? = some inv) :
    ∃ svc rest slots1, steps = svc :: rest ∧
      chainInput ctx svc i slots = .ok slots1 ∧
      inv.service = svc ∧ inv.slots_before = slots1 ∧
      inv.slots_after = (execStep ctx i svc slots1).slots ∧
      inv.success = (execStep ctx i svc slots1).success := by
  cases steps with
  | nil => rw [runSteps_nil] at h; cases h
  | cons svc rest =>
    cases hc : chainInput ctx svc i slots with
    | error m => rw [runSteps_cons_err ctx svc rest i slots m hc] at h; cases h
    | ok slots1 =>
      cases hs : (execStep ctx i svc slots1).success with
      | true =>
        rw [runSteps_cons_ok_succ ctx svc rest i slots slots1 hc hs] at h
        obtain rfl : inv = ⟨svc, slots1, (execStep ctx i svc slots1).slots, true⟩ :=
          (Option.some.inj (by simpa using h)).symm
        exact ⟨svc, rest, slots1, rfl, hc, rfl, rfl, rfl, hs.symm⟩
      | false =>
        rw [runSteps_cons_ok_fail ctx svc rest i slots slots1 hc hs] at h
        obtain rfl : inv = ⟨svc, slots1, (execStep ctx i svc slots1).slots, false⟩ :=
          (Option.some.inj (by simpa using h)).symm
        exact ⟨svc, rest, slots1, rfl, hc, rfl, rfl, rfl, hs.symm⟩

/-- At positive loop index, the first recorded invocation sees the renamed
previous output as its input, and the output slot is gone. -/
lemma runSteps_head_pos (ctx : StepCtx) (steps : List String) (i : Nat) (slots : Slots)
    (inv : Invocation) (hi : 0 < i)
    (h : ((runSteps ctx steps i slots).2).head? = some inv) :
    ∃ o, slots.output_txt = some o ∧
      inv.slots_before.input_txt = some o ∧ inv.slots_before.output_txt = none := by
  obtain ⟨svc, rest, slots1, _, hc, _, hb, _, _⟩ := runSteps_head ctx steps i slots inv h
  obtain ⟨o, ho, rfl⟩ := chainInput_ok_inv ctx svc i slots slots1 hi hc
  rw [hb]
  exact ⟨o, ho, rfl, rfl⟩

/-- Chaining between consecutive recorded invocations: step `k+1` is
launched with the output bytes of the previous step as its input, and with the
output slot absent. -/
lemma runSteps_consecutive (ctx : StepCtx) :
    ∀ (steps : List String) (i : Nat) (slots : Slots) (k : Nat) (a b : Invocation),
      ((runSteps ctx steps i slots).2).get? k = some a →
      ((runSteps ctx steps i slots).2).get? (k + 1) = some b →
      ∃ o, a.slots_after.output_txt = some o ∧
        b.slots_before.input_txt = some o ∧ b.slots_before.output_txt = none := by
  intro steps
  induction steps with
  | nil =>
    intro i slots k a b ha _
    rw [runSteps_nil] at ha
    cases ha
  | cons svc rest ih =>
    intro i slots k a b ha hb
    cases hc : chainInput ctx svc i slots with
    | error m =>
      rw [runSteps_cons_err ctx svc rest i slots m hc] at ha
      cases ha
    | ok slots1 =>
      cases hs : (execStep ctx i svc slots1).success with
      | false =>
        rw [runSteps_cons_ok_fail ctx svc rest i slots slots1 hc hs] at hb
        simp at hb
      | true =>
        rw [runSteps_cons_ok_succ ctx svc rest i slots slots1 hc hs] at ha hb
        cases k with
        | zero =>
          obtain rfl : a = ⟨svc, slots1, (execStep ctx i svc slots1).slots, true⟩ :=
            (Option.some.inj (by simpa using ha)).symm
          have hb' : ((runSteps ctx rest (i + 1) (execStep ctx i svc slots1).slots).2).head? =
              some b := by
            rw [← List.get?_zero]
            simpa using hb
          obtain ⟨o, ho, hbi, hbo⟩ :=
            runSteps_head_pos ctx rest (i + 1) (execStep ctx i svc slots1).slots b
              (Nat.succ_pos i) hb'
          exact ⟨o, ho, hbi, hbo⟩
        | succ k' =>
          exact ih (i + 1) (execStep ctx i svc slots1).slots k' a b
            (by simpa using ha) (by simpa using hb)

/-- When the recorded invocation at index `k` failed, it is the last one
and the loop ended with its failure diagnostic. -/
lemma runSteps_failure (ctx : StepCtx) :
    ∀ (steps : List String) (i : Nat) (slots : Slots) (k : Nat) (inv : Invocation),
      ((runSteps ctx steps i slots).2).get? k = some inv →
      inv.success = false →
      ((runSteps ctx steps i slots).2).length = k + 1 ∧
      (runSteps ctx steps i slots).1 =
        .failed (failDetail inv.service inv.slots_after.output_txt) := by
  intro steps
  induction steps with
  | nil =>
    intro i slots k inv ha _
    rw [runSteps_nil] at ha
    cases ha
  | cons svc rest ih =>
    intro i slots k inv ha hf
    cases hc : chainInput ctx svc i slots with
    | error m =>
      rw [runSteps_cons_err ctx svc rest i slots m hc] at ha
      cases ha
    | ok slots1 =>
      cases hs : (execStep ctx i svc slots1).success with
      | true =>
        rw [runSteps_cons_ok_succ ctx svc rest i slots slots1 hc hs] at ha ⊢
        cases k with
        | zero =>
          obtain rfl : inv = ⟨svc, slots1, (execStep ctx i svc slots1).slots, true⟩ :=
            (Option.some.inj (by simpa using ha)).symm
          cases hf
        | succ k' =>
          obtain ⟨hl, hr⟩ := ih (i + 1) (execStep ctx i svc slots1).slots k' inv
            (by simpa using ha) hf
          exact ⟨by simpa using hl, hr⟩
      | false =>
        rw [runSteps_cons_ok_fail ctx svc rest i slots slots1 hc hs] at ha ⊢
        cases k with
        | zero =>
          obtain rfl : inv = ⟨svc, slots1, (execStep ctx i svc slots1).slots, false⟩ :=
            (Option.some.inj (by simpa using ha)).symm
          exact ⟨rfl, rfl⟩
        | succ k' => simp at ha

/-- When the recorded invocation at index `k` succeeded but left no output
artifact and another validated step follows, the loop stops there and
raises the chaining `FileNotFoundError` naming the NEXT step. -/
lemma runSteps_missing_output (ctx : StepCtx) :
    ∀ (steps : List String) (i : Nat) (slots : Slots) (k : Nat) (inv : Invocation)
      (svc2 : String),
      ((runSteps ctx steps i slots).2).get? k = some inv →
      inv.success = true →
      inv.slots_after.output_txt = none →
      steps.get? (k + 1) = some svc2 →
      ((runSteps ctx steps i slots).2).length = k + 1 ∧
      (runSteps ctx steps i slots).1 = .raised (chainMsg ctx svc2) := by
  intro steps
  induction steps with
  | nil =>
    intro i slots k inv svc2 ha _ _ _
    rw [runSteps_nil] at ha
    cases ha
  | cons svc rest ih =>
    intro i slots k inv svc2 ha hsucc hout hstep
    cases hc : chainInput ctx svc i slots with
    | error m =>
      rw [runSteps_cons_err ctx svc rest i slots m hc] at ha
      cases ha
    | ok slots1 =>
      cases hs : (execStep ctx i svc slots1).success with
      | false =>
        rw [runSteps_cons_ok_fail ctx svc rest i slots slots1 hc hs] at ha
        cases k with
        | zero =>
          obtain rfl : inv = ⟨svc, slots1, (execStep ctx i svc slots1).slots, false⟩ :=
            (Option.some.inj (by simpa using ha)).symm
          cases hsucc
        | succ k' => simp at ha
      | true =>
        rw [runSteps_cons_ok_succ ctx svc rest i slots slots1 hc hs] at ha ⊢
        cases k with
        | zero =>
          obtain rfl : inv = ⟨svc, slots1, (execStep ctx i svc slots1).slots, true⟩ :=
            (Option.some.inj (by simpa using ha)).symm
          cases rest with
          | nil => cases hstep
          | cons svcb rest2 =>
            have hsv : svcb = svc2 := Option.some.inj (by simpa using hstep)
            have hcb : chainInput ctx svcb (i + 1) (execStep ctx i svc slots1).slots =
                .error (chainMsg ctx svcb) :=
              chainInput_pos_none ctx svcb (i + 1) _ (Nat.succ_pos i) (by simpa using hout)
            rw [runSteps_cons_err ctx svcb rest2 (i + 1) _ _ hcb]
            exact ⟨rfl, by rw [hsv]⟩
        | succ k' =>
          obtain ⟨hl, hr⟩ := ih (i + 1) (execStep ctx i svc slots1).slots k' inv svc2
            (by simpa using ha) hsucc hout (by simpa using hstep)
          exact ⟨by simpa using hl, hr⟩

lemma run_docker_task_success_fields (key : Option String) (behavior : ContainerBehavior)
    (svc : String) (ev : List (String × String)) (slots : Slots)
    (hknown : knownService svc = true) (hkey : pyTruthy key = true)
    (hok : behavior.docker_ok = true) :
    (run_docker_task key behavior svc ev slots).success = behavior.exit_zero ∧
    (run_docker_task key behavior svc ev slots).slots = behavior.effect slots := by
  unfold knownService at hknown
  cases hl : SERVICE_INFO.lookup svc with
  | none => rw [hl] at hknown; cases hknown
  | some d =>
    unfold run_docker_task
    rw [hl]
    have hcond : (d.needs_api_key && !(pyTruthy key)) = false := by
      rw [hkey]; simp
    simp [hcond, hok]

/-- When the API key is set, every container succeeds and every container
leaves an output artifact, the loop runs every step, in order, and every
recorded invocation succeeded. -/
lemma runSteps_all_success (ctx : StepCtx) (hkey : pyTruthy ctx.google_api_key = true)
    (hdock : ∀ j, (ctx.docker j).docker_ok = true ∧ (ctx.docker j).exit_zero = true ∧
      ∀ s, ((ctx.docker j).effect s).output_txt ≠ none) :
    ∀ (steps : List String), (∀ s ∈ steps, knownService s = true) →
    ∀ (i : Nat) (slots : Slots), (0 < i → slots.output_txt ≠ none) →
      ((runSteps ctx steps i slots).2).map Invocation.service = steps ∧
      ∀ inv ∈ (runSteps ctx steps i slots).2, inv.success = true := by
  intro steps
  induction steps with
  | nil =>
    intro _ i slots _
    rw [runSteps_nil]
    exact ⟨rfl, by simp⟩
  | cons svc rest ih =>
    intro hknown i slots hout
    obtain ⟨slots1, hc⟩ := chainInput_isOk ctx svc i slots hout
    have hsvc : knownService svc = true := hknown svc (List.mem_cons_self svc rest)
    obtain ⟨hsucc, hslots⟩ := run_docker_task_success_fields ctx.google_api_key (ctx.docker i)
      svc (stepEnvVars ctx svc) slots1 hsvc hkey (hdock i).1
    have hs : (execStep ctx i svc slots1).success = true := by
      unfold execStep
      rw [hsucc]
      exact (hdock i).2.1
    rw [runSteps_cons_ok_succ ctx svc rest i slots slots1 hc hs]
    have hout' : 0 < i + 1 → (execStep ctx i svc slots1).slots.output_txt ≠ none := by
      intro _
      unfold execStep
      rw [hslots]
      exact (hdock i).2.2 slots1
    obtain ⟨hmap, hall⟩ := ih (fun s hmem => hknown s (List.mem_cons_of_mem svc hmem))
      (i + 1) (execStep ctx i svc slots1).slots hout'
    refine ⟨by simpa using hmap, ?_⟩
    intro inv hinv
    rcases List.mem_cons.mp hinv with rfl | htail
    · rfl
    · exact hall inv htail

/-! ### Structural facts about `run_pipeline` -/

/-- `pdf-reader-service` is not a registry key, so it never survives the
plan filter. -/
lemma knownService_pdf_reader : knownService "pdf-reader-service" = false := by decide

lemma head_filter_not_pdf (l : List String) :
    ((l.filter knownService).head? == some "pdf-reader-service") = false := by
  cases hf : l.filter knownService with
  | nil => rfl
  | cons a t =>
    have ha : a ∈ l.filter knownService := hf ▸ List.mem_cons_self a t
    have hka : knownService a = true := (List.mem_filter.mp ha).2
    have hne : a ≠ "pdf-reader-service" := by
      intro he
      rw [he, knownService_pdf_reader] at hka
      cases hka
    simp [hne]

lemma initialText_eq_getD (c : Option String) : initialText c = c.getD "" := by
  cases c with
  | none => rfl
  | some s =>
    unfold initialText
    by_cases hs : s = ""
    · subst hs; rfl
    · simp [hs]

/-- The `StepCtx` of a run whose first validated step is not the PDF
reader. -/
def mainCtx (env : PipelineEnv) (user_request : String) : StepCtx :=
  { google_api_key := env.google_api_key, docker := env.docker,
    user_request := user_request, temp_dir := env.temp_dir,
    is_first_step_pdf := false }

/-- The slots staged for a text-input run. -/
def textSlots (initial_input_content : Option String) : Slots :=
  { input_txt := some (initialText initial_input_content), output_txt := none,
    input_pdf := none }

lemma runWithWorkspace_not_pdf (env : PipelineEnv) (user_request : String)
    (initial_input_content initial_input_filepath : Option String) (vs : List String)
    (hvs : (vs.head? == some "pdf-reader-service") = false) :
    runWithWorkspace env user_request initial_input_content initial_input_filepath vs =
      { result := assembleResult vs
          (runSteps (mainCtx env user_request) vs 0 (textSlots initial_input_content)).1,
        validated := vs, ws_created := true, ws_exists_after := false,
        is_first_step_pdf := false, pdf_copied := false, pdf_error_raised := false,
        invocations :=
          (runSteps (mainCtx env user_request) vs 0 (textSlots initial_input_content)).2 } := by
  unfold runWithWorkspace
  rw [hvs]
  rfl

/-- Case analysis on `run_pipeline`: either one of the early returns
before `mkdtemp`, or the PDF-staging `ValueError`, or a run of the step
loop over the validated steps. -/
lemma run_pipeline_cases (env : PipelineEnv) (user_request : String)
    (initial_input_content initial_input_filepath : Option String) :
    (run_pipeline env user_request initial_input_content initial_input_filepath =
        emptyReport (none, some apiKeyMsg)) ∨
    (run_pipeline env user_request initial_input_content initial_input_filepath =
        emptyReport (none, some planFailMsg)) ∨
    (run_pipeline env user_request initial_input_content initial_input_filepath =
        emptyReport (none, some noServicesMsg)) ∨
    (∃ plan, env.llm_plan = some plan ∧ plan.filter knownService ≠ [] ∧
      run_pipeline env user_request initial_input_content initial_input_filepath =
        runWithWorkspace env user_request initial_input_content initial_input_filepath
          (plan.filter knownService)) := by
  unfold run_pipeline
  by_cases hkey : pyTruthy env.google_api_key = true
  · rw [if_pos hkey]
    cases hplan : env.llm_plan with
    | none => exact Or.inr (Or.inl rfl)
    | some plan =>
      dsimp only
      by_cases hempty : plan = []
      · rw [if_pos hempty]
        exact Or.inr (Or.inl rfl)
      · rw [if_neg hempty]
        by_cases hval : plan.filter knownService = []
        · rw [if_pos hval]
          exact Or.inr (Or.inr (Or.inl rfl))
        · rw [if_neg hval]
          exact Or.inr (Or.inr (Or.inr ⟨plan, rfl, hval, rfl⟩))
  · rw [if_neg hkey]
    exact Or.inl rfl

/-- Every run that gets past validation takes the non-PDF staging branch:
its report comes from `runWithWorkspace_not_pdf`. -/
lemma run_pipeline_cases_resolved (env : PipelineEnv) (user_request : String)
    (initial_input_content initial_input_filepath : Option String) :
    (∃ msg, run_pipeline env user_request initial_input_content initial_input_filepath =
        emptyReport (none, some msg)) ∨
    (∃ vs, vs ≠ [] ∧ (∀ s ∈ vs, knownService s = true) ∧
      run_pipeline env user_request initial_input_content initial_input_filepath =
        { result := assembleResult vs
            (runSteps (mainCtx env user_request) vs 0 (textSlots initial_input_content)).1,
          validated := vs, ws_created := true, ws_exists_after := false,
          is_first_step_pdf := false, pdf_copied := false, pdf_error_raised := false,
          invocations :=
            (runSteps (mainCtx env user_request) vs 0 (textSlots initial_input_content)).2 }) := by
  rcases run_pipeline_cases env user_request initial_input_content initial_input_filepath with
    h | h | h | ⟨plan, _, hval, h⟩
  · exact Or.inl ⟨apiKeyMsg, h⟩
  · exact Or.inl ⟨planFailMsg, h⟩
  · exact Or.inl ⟨noServicesMsg, h⟩
  · refine Or.inr ⟨plan.filter knownService, hval, ?_, ?_⟩
    · intro s hs
      exact (List.mem_filter.mp hs).2
    · rw [h]
      exact runWithWorkspace_not_pdf env user_request initial_input_content
        initial_input_filepath (plan.filter knownService) (head_filter_not_pdf plan)

lemma assembleResult_exclusive (vs : List String) (lr : LoopResult) :
    ((assembleResult vs lr).1.isSome = true ∧ (assembleResult vs lr).2 = none) ∨
    ((assembleResult vs lr).1 = none ∧ (assembleResult vs lr).2.isSome = true) := by
  cases lr with
  | failed d => exact Or.inr ⟨rfl, rfl⟩
  | raised m => exact Or.inr ⟨rfl, rfl⟩
  | ok slots =>
    cases ho : slots.output_txt with
    | some f =>
      left
      constructor <;> simp [assembleResult, ho]
    | none =>
      right
      constructor <;> simp [assembleResult, ho]

lemma read_at_most_le (n : Nat) (s : String) : (read_at_most n s).length ≤ n := by
  unfold read_at_most
  show (s.data.take n).length ≤ n
  rw [List.length_take]
  exact Nat.min_le_left n s.data.length

lemma lang_map_lookup_mem (k v : String) (h : lang_map.lookup k = some v) :
    v ∈ ["de", "fr", "es", "ja", "en"] := by
  simp only [lang_map, List.lookup] at h
  repeat' split at h
  all_goals simp_all

/-! ### Concrete runs used as witnesses and counterexamples -/

/-- A container that succeeds and writes `"HELLO"` to the output slot. -/
def okBeh : ContainerBehavior :=
  { docker_ok := true, exit_zero := true,
    effect := fun s => { s with output_txt := some "HELLO" } }

/-- A container that succeeds but writes nothing. -/
def idBeh : ContainerBehavior :=
  { docker_ok := true, exit_zero := true, effect := fun s => s }

/-- A container that writes `"boom"` to the output slot and exits
non-zero. -/
def boomBeh : ContainerBehavior :=
  { docker_ok := true, exit_zero := false,
    effect := fun s => { s with output_txt := some "boom" } }

def baseEnv : PipelineEnv :=
  { google_api_key := some "key",
    llm_plan := some ["summarizer-service", "translator-service"],
    docker := fun _ => okBeh, temp_dir := "/tmp/llm_orch_run_w",
    path_exists := fun _ => false, read_file := fun _ => "" }

def noOutEnv : PipelineEnv := { baseEnv with docker := fun _ => idBeh }

def failEnv : PipelineEnv :=
  { baseEnv with
    llm_plan := some ["summarizer-service"]
    docker := fun _ => boomBeh }

def emptyPlanEnv : PipelineEnv := { baseEnv with llm_plan := some [] }

def unknownPlanEnv : PipelineEnv :=
  { baseEnv with llm_plan := some ["alpha-service", "beta-service"] }

def invDefault : Invocation :=
  { service := "", slots_before := ⟨none, none, none⟩,
    slots_after := ⟨none, none, none⟩, success := false }

/-! ### The claims -/

/-- C1: whenever a `run_pipeline` run creates the workspace temporary
directory, that directory is absent from the filesystem by the time the
run returns, on every exit path (success, failed step, missing artifact,
or an exception raised inside the pipeline body). -/
theorem run_pipeline_workspace_removed (env : PipelineEnv) (user_request : String)
    (initial_input_content initial_input_filepath : Option String)
    (hcreated : (run_pipeline env user_request initial_input_content
      initial_input_filepath).ws_created = true) :
    (run_pipeline env user_request initial_input_content
      initial_input_filepath).ws_exists_after = false := by
  rcases run_pipeline_cases_resolved env user_request initial_input_content
      initial_input_filepath with ⟨msg, h⟩ | ⟨vs, _, _, h⟩
  · rw [h] at hcreated
    cases hcreated
  · rw [h]

/-- C1 witness: a concrete successful run that created its workspace. -/
theorem run_pipeline_workspace_removed_witness :
    (run_pipeline baseEnv "r" (some "text") none).ws_exists_after = false :=
  run_pipeline_workspace_removed baseEnv "r" (some "text") none (by decide)

/-- C2: whenever the step loop launches invocation `k+1`, the output
artifact produced by invocation `k` has been moved byte-identically into
the input slot, and the output slot no longer exists at launch time. -/
theorem run_pipeline_chaining_preserves_bytes (env : PipelineEnv) (user_request : String)
    (initial_input_content initial_input_filepath : Option String) (k : Nat)
    (a b : Invocation)
    (ha : (run_pipeline env user_request initial_input_content
      initial_input_filepath).invocations.get? k = some a)
    (hb : (run_pipeline env user_request initial_input_content
      initial_input_filepath).invocations.get? (k + 1) = some b) :
    ∃ o, a.slots_after.output_txt = some o ∧
      b.slots_before.input_txt = some o ∧ b.slots_before.output_txt = none := by
  rcases run_pipeline_cases_resolved env user_request initial_input_content
      initial_input_filepath with ⟨msg, h⟩ | ⟨vs, _, _, h⟩
  · rw [h] at ha
    cases ha
  · rw [h] at ha hb
    exact runSteps_consecutive (mainCtx env user_request) vs 0
      (textSlots initial_input_content) k a b ha hb

/-- C2 witness: the two-step `baseEnv` run, between its first and second
invocations. -/
theorem run_pipeline_chaining_preserves_bytes_witness :
    ∃ o,
      ((run_pipeline baseEnv "r" (some "text") none).invocations.getD 0
        invDefault).slots_after.output_txt = some o ∧
      ((run_pipeline baseEnv "r" (some "text") none).invocations.getD 1
        invDefault).slots_before.input_txt = some o ∧
      ((run_pipeline baseEnv "r" (some "text") none).invocations.getD 1
        invDefault).slots_before.output_txt = none :=
  run_pipeline_chaining_preserves_bytes baseEnv "r" (some "text") none 0
    ((run_pipeline baseEnv "r" (some "text") none).invocations.getD 0 invDefault)
    ((run_pipeline baseEnv "r" (some "text") none).invocations.getD 1 invDefault)
    (by decide) (by decide)

/-- C7: for a registered task that needs the credential, when
`GOOGLE_API_KEY` is unset (or empty) `run_docker_task` returns failure
with the missing-credential diagnostic and never reaches the container
launch. -/
theorem run_docker_task_missing_credential (google_api_key : Option String)
    (behavior : ContainerBehavior) (service_name : String)
    (env_vars : List (String × String)) (slots : Slots)
    (service_details : ServiceDetails)
    (hs : SERVICE_INFO.lookup service_name = some service_details)
    (hneed : service_details.needs_api_key = true)
    (hkey : pyTruthy google_api_key = false) :
    (run_docker_task google_api_key behavior service_name env_vars slots).success = false ∧
    (run_docker_task google_api_key behavior service_name env_vars slots).attempted_launch
      = false ∧
    (run_docker_task google_api_key behavior service_name env_vars slots).log
      = [missingKeyMsg service_name] ∧
    (run_docker_task google_api_key behavior service_name env_vars slots).slots = slots := by
  unfold run_docker_task
  rw [hs]
  dsimp only
  have hcond : (service_details.needs_api_key && !(pyTruthy google_api_key)) = true := by
    rw [hneed, hkey]
    rfl
  rw [if_pos hcond]
  exact ⟨rfl, rfl, rfl, rfl⟩

/-- C7 witness: the summarizer descriptor with no key in the
environment. -/
theorem run_docker_task_missing_credential_witness :
    (run_docker_task none okBeh "summarizer-service" [] ⟨none, none, none⟩).success = false ∧
    (run_docker_task none okBeh "summarizer-service" [] ⟨none, none, none⟩).attempted_launch
      = false ∧
    (run_docker_task none okBeh "summarizer-service" [] ⟨none, none, none⟩).log
      = [missingKeyMsg "summarizer-service"] ∧
    (run_docker_task none okBeh "summarizer-service" [] ⟨none, none, none⟩).slots
      = ⟨none, none, none⟩ :=
  run_docker_task_missing_credential none okBeh "summarizer-service" [] ⟨none, none, none⟩
    { image := "summarizer-app", needs_api_key := true,
      description := "Generates a concise summary of the input text." }
    (by decide) rfl rfl

/-- C8: `run_pipeline` always returns a pair with exactly one populated
component: an artifact and no diagnostic on success, no artifact and a
diagnostic on every failure path. -/
theorem run_pipeline_exactly_one_populated (env : PipelineEnv) (user_request : String)
    (initial_input_content initial_input_filepath : Option String) :
    ((run_pipeline env user_request initial_input_content
        initial_input_filepath).result.1.isSome = true ∧
      (run_pipeline env user_request initial_input_content
        initial_input_filepath).result.2 = none) ∨
    ((run_pipeline env user_request initial_input_content
        initial_input_filepath).result.1 = none ∧
      (run_pipeline env user_request initial_input_content
        initial_input_filepath).result.2.isSome = true) := by
  rcases run_pipeline_cases_resolved env user_request initial_input_content
      initial_input_filepath with ⟨msg, h⟩ | ⟨vs, _, _, h⟩
  · rw [h]
    exact Or.inr ⟨rfl, rfl⟩
  · rw [h]
    exact assembleResult_exclusive vs _

/-- C9: `extract_language` is total with values in the fixed code table:
a recognized phrase with a known language name yields the code of that name,
and both a missing phrase and an unknown name yield the default `"en"`. -/
theorem extract_language_total (user_request : String) :
    extract_language user_request ∈ ["de", "fr", "es", "ja", "en"] ∧
    (searchTranslate user_request.data = none → extract_language user_request = "en") ∧
    (∀ w, searchTranslate user_request.data = some w →
      lang_map.lookup (String.mk (w.map Char.toLower)) = none →
      extract_language user_request = "en") ∧
    (∀ w code, searchTranslate user_request.data = some w →
      lang_map.lookup (String.mk (w.map Char.toLower)) = some code →
      extract_language user_request = code) := by
  refine ⟨?_, ?_, ?_, ?_⟩
  · unfold extract_language
    cases hs : searchTranslate user_request.data with
    | none => simp
    | some w =>
      dsimp only
      cases hl : lang_map.lookup (String.mk (w.map Char.toLower)) with
      | none => simp
      | some code =>
        simpa using lang_map_lookup_mem _ code hl
  · intro h
    unfold extract_language
    rw [h]
  · intro w hw hl
    unfold extract_language
    rw [hw]
    dsimp only
    rw [hl]
    rfl
  · intro w code hw hl
    unfold extract_language
    rw [hw]
    dsimp only
    rw [hl]
    rfl

/-- C9 witness: a known name, no phrase, and an unknown name. -/
theorem extract_language_total_witness :
    extract_language "please translate to German" = "de" ∧
    extract_language "hello there" = "en" ∧
    extract_language "translate to klingon" = "en" :=
  ⟨(extract_language_total "please translate to German").2.2.2 "German".data "de"
      (by decide) (by decide),
   (extract_language_total "hello there").2.1 (by decide),
   (extract_language_total "translate to klingon").2.2.1 "klingon".data
      (by decide) (by decide)⟩

/-- C3 counterexample: an empty raw plan does NOT produce the
no-actionable-steps diagnostic — `if not plan:` treats the empty list as
a planner failure, so the run returns the planner-failure message, which
does not indicate "no actionable steps" (unlike the message of the
all-unknown branch, which does). -/
theorem empty_plan_diagnostic_counterexample :
    (run_pipeline emptyPlanEnv "r" (some "text") none).result = (none, some planFailMsg) ∧
    planFailMsg ≠ noServicesMsg ∧
    substrB "actionable".data planFailMsg.data = false ∧
    substrB "actionable".data noServicesMsg.data = true :=
  ⟨by decide, by decide, by decide, by decide⟩

/-- C3 (amended): an empty raw plan fails with the planner-failure
diagnostic (not the no-actionable-steps one) with `none` as the artifact,
no executor invocation and no workspace; a non-empty raw plan with only
unknown identifiers fails with the no-actionable-steps diagnostic,
likewise without invocations or workspace; a raw plan with at least one
known identifier is validated to exactly the known identifiers in their
original order, and the run proceeds to create the workspace. -/
theorem plan_validation_behavior :
    (∀ (env : PipelineEnv) (req : String) (c p : Option String),
      pyTruthy env.google_api_key = true → env.llm_plan = some [] →
      run_pipeline env req c p = emptyReport (none, some planFailMsg)) ∧
    (∀ (env : PipelineEnv) (req : String) (c p : Option String) (plan : List String),
      pyTruthy env.google_api_key = true → env.llm_plan = some plan → plan ≠ [] →
      plan.filter knownService = [] →
      run_pipeline env req c p = emptyReport (none, some noServicesMsg)) ∧
    (∀ (env : PipelineEnv) (req : String) (c p : Option String) (plan : List String),
      pyTruthy env.google_api_key = true → env.llm_plan = some plan →
      plan.filter knownService ≠ [] →
      (run_pipeline env req c p).validated = plan.filter knownService ∧
      (run_pipeline env req c p).ws_created = true) := by
  refine ⟨?_, ?_, ?_⟩
  · intro env req c p hkey hplan
    unfold run_pipeline
    rw [if_pos hkey, hplan]
    rfl
  · intro env req c p plan hkey hplan hne hval
    unfold run_pipeline
    rw [if_pos hkey, hplan]
    dsimp only
    rw [if_neg hne, if_pos hval]
  · intro env req c p plan hkey hplan hval
    have hne : plan ≠ [] := fun e => hval (by rw [e]; rfl)
    unfold run_pipeline
    rw [if_pos hkey, hplan]
    dsimp only
    rw [if_neg hne, if_neg hval]
    rw [runWithWorkspace_not_pdf env req c p _ (head_filter_not_pdf plan)]
    exact ⟨rfl, rfl⟩

/-- C3 (amended) witness: the three cases at concrete plans. -/
theorem plan_validation_behavior_witness :
    run_pipeline emptyPlanEnv "r" (some "text") none = emptyReport (none, some planFailMsg) ∧
    run_pipeline unknownPlanEnv "r" (some "text") none
      = emptyReport (none, some noServicesMsg) ∧
    (run_pipeline baseEnv "r" (some "text") none).validated =
      ["summarizer-service", "translator-service"] :=
  ⟨plan_validation_behavior.1 emptyPlanEnv "r" (some "text") none rfl rfl,
   plan_validation_behavior.2.1 unknownPlanEnv "r" (some "text") none
     ["alpha-service", "beta-service"] rfl rfl (by decide) (by decide),
   (plan_validation_behavior.2.2 baseEnv "r" (some "text") none
     ["summarizer-service", "translator-service"] rfl rfl (by decide)).1⟩

/-- C4: when the recorded invocation at index `k` reports failure, it is
the last invocation (later steps are never launched) and the run returns
`none` with a diagnostic that names the identifier of that step and appends at
most 500 characters of the output artifact when one exists. -/
theorem run_pipeline_step_failure_aborts (env : PipelineEnv) (user_request : String)
    (initial_input_content initial_input_filepath : Option String) (k : Nat)
    (inv : Invocation)
    (ha : (run_pipeline env user_request initial_input_content
      initial_input_filepath).invocations.get? k = some inv)
    (hf : inv.success = false) :
    (run_pipeline env user_request initial_input_content
      initial_input_filepath).invocations.length = k + 1 ∧
    (run_pipeline env user_request initial_input_content initial_input_filepath).result =
      (none, some (failDetail inv.service inv.slots_after.output_txt)) ∧
    substrB inv.service.data (failDetail inv.service inv.slots_after.output_txt).data
      = true ∧
    (∀ o, inv.slots_after.output_txt = some o →
      failDetail inv.service (some o) =
        "Pipeline failed at step " ++ inv.service ++
          (". Last output/error from container:\n---\n" ++ read_at_most 500 o ++ "\n---") ∧
      (read_at_most 500 o).length ≤ 500) := by
  rcases run_pipeline_cases_resolved env user_request initial_input_content
      initial_input_filepath with ⟨msg, h⟩ | ⟨vs, _, _, h⟩
  · rw [h] at ha
    cases ha
  · rw [h] at ha ⊢
    obtain ⟨hlen, hres⟩ := runSteps_failure (mainCtx env user_request) vs 0
      (textSlots initial_input_content) k inv ha hf
    refine ⟨hlen, ?_, substrB_failDetail inv.service inv.slots_after.output_txt, ?_⟩
    · show assembleResult vs
        (runSteps (mainCtx env user_request) vs 0 (textSlots initial_input_content)).1 = _
      rw [hres]
      rfl
    · intro o ho
      exact ⟨rfl, read_at_most_le 500 o⟩

/-- C4 witness: one failing step whose container wrote `"boom"`. -/
theorem run_pipeline_step_failure_aborts_witness :
    (run_pipeline failEnv "r" (some "x") none).invocations.length = 0 + 1 ∧
    (run_pipeline failEnv "r" (some "x") none).result =
      (none, some (failDetail "summarizer-service" (some "boom"))) ∧
    (read_at_most 500 "boom").length ≤ 500 := by
  have h := run_pipeline_step_failure_aborts failEnv "r" (some "x") none 0
    ((run_pipeline failEnv "r" (some "x") none).invocations.getD 0 invDefault)
    (by decide) (by decide)
  exact ⟨h.1, h.2.1, (h.2.2.2 "boom" (by decide)).2⟩

/-- C5 counterexample: in a two-step validated plan whose first container
succeeds (exit 0) but writes no output artifact, every step execution
that happens succeeds, yet `run_docker_task` is invoked once, not twice:
the chaining failure prevents the second invocation.  So "all step
executions succeed" does not give exactly n invocations. -/
theorem executor_count_counterexample :
    (∀ inv ∈ (run_pipeline noOutEnv "r" (some "text") none).invocations,
      inv.success = true) ∧
    (run_pipeline noOutEnv "r" (some "text") none).validated.length = 2 ∧
    (run_pipeline noOutEnv "r" (some "text") none).invocations.length = 1 :=
  ⟨by decide, by decide, by decide⟩

/-- C5 (amended): for any validated plan, when the key is set and every
container execution succeeds AND leaves an output artifact, the Task
Executor is invoked exactly once per validated step, in plan
order. -/
theorem executor_invoked_once_per_step (env : PipelineEnv) (req : String)
    (c p : Option String) (plan : List String)
    (hkey : pyTruthy env.google_api_key = true)
    (hplan : env.llm_plan = some plan)
    (hval : plan.filter knownService ≠ [])
    (hdock : ∀ j, (env.docker j).docker_ok = true ∧ (env.docker j).exit_zero = true ∧
      ∀ s, ((env.docker j).effect s).output_txt ≠ none) :
    (run_pipeline env req c p).invocations.map Invocation.service
      = plan.filter knownService ∧
    ∀ inv ∈ (run_pipeline env req c p).invocations, inv.success = true := by
  have hne : plan ≠ [] := fun e => hval (by rw [e]; rfl)
  unfold run_pipeline
  rw [if_pos hkey, hplan]
  dsimp only
  rw [if_neg hne, if_neg hval]
  rw [runWithWorkspace_not_pdf env req c p _ (head_filter_not_pdf plan)]
  dsimp only
  exact runSteps_all_success (mainCtx env req) hkey hdock (plan.filter knownService)
    (fun s hs => (List.mem_filter.mp hs).2) 0 (textSlots c)
    (fun h0 => absurd h0 (Nat.lt_irrefl 0))

/-- C5 (amended) witness: the two-step run whose containers write
`"HELLO"`. -/
theorem executor_invoked_once_per_step_witness :
    (run_pipeline baseEnv "r" (some "text") none).invocations.map Invocation.service =
      ["summarizer-service", "translator-service"] :=
  (executor_invoked_once_per_step baseEnv "r" (some "text") none
      ["summarizer-service", "translator-service"] rfl rfl (by decide)
      (fun _ => ⟨rfl, rfl, fun _ h => Option.noConfusion h⟩)).1

/-- C6 counterexample: when the first of two steps succeeds without
writing an output, the run does fail before launching step 2, but the
diagnostic names step 2 (`translator-service`, the step whose input is
missing) and not step 1 (`summarizer-service`), and it does not have the
form `artifact missing after step X`. -/
theorem chain_diagnostic_counterexample :
    (run_pipeline noOutEnv "r" (some "text") none).invocations.length = 1 ∧
    (run_pipeline noOutEnv "r" (some "text") none).result.2 =
      some ("Pipeline failed: " ++ ("Input file \x27" ++ "/tmp/llm_orch_run_w" ++
        "/input.txt\x27 missing for step " ++ "translator-service" ++
        ". Expected output from previous step.")) ∧
    substrB "summarizer-service".data
      ("Pipeline failed: " ++ ("Input file \x27" ++ "/tmp/llm_orch_run_w" ++
        "/input.txt\x27 missing for step " ++ "translator-service" ++
        ". Expected output from previous step.")).data = false ∧
    substrB "artifact missing after step".data
      ("Pipeline failed: " ++ ("Input file \x27" ++ "/tmp/llm_orch_run_w" ++
        "/input.txt\x27 missing for step " ++ "translator-service" ++
        ". Expected output from previous step.")).data = false :=
  ⟨by decide, by decide, by decide, by decide⟩

/-- C6 (amended): a non-final step that succeeds but leaves no output
artifact makes the run fail before launching the next step, with the
chaining diagnostic that names the NEXT step (the step whose input file
is missing), wrapped by the `Pipeline failed: ` prefix that the
exception handler adds. -/
theorem chain_missing_output_aborts (env : PipelineEnv) (user_request : String)
    (initial_input_content initial_input_filepath : Option String) (k : Nat)
    (inv : Invocation) (svc2 : String)
    (ha : (run_pipeline env user_request initial_input_content
      initial_input_filepath).invocations.get? k = some inv)
    (hsucc : inv.success = true)
    (hout : inv.slots_after.output_txt = none)
    (hnext : (run_pipeline env user_request initial_input_content
      initial_input_filepath).validated.get? (k + 1) = some svc2) :
    (run_pipeline env user_request initial_input_content
      initial_input_filepath).invocations.length = k + 1 ∧
    (run_pipeline env user_request initial_input_content initial_input_filepath).result =
      (none, some ("Pipeline failed: " ++ ("Input file \x27" ++ env.temp_dir ++
        "/input.txt\x27 missing for step " ++ svc2 ++
        ". Expected output from previous step."))) := by
  rcases run_pipeline_cases_resolved env user_request initial_input_content
      initial_input_filepath with ⟨msg, h⟩ | ⟨vs, _, _, h⟩
  · rw [h] at ha
    cases ha
  · rw [h] at ha hnext ⊢
    obtain ⟨hlen, hres⟩ := runSteps_missing_output (mainCtx env user_request) vs 0
      (textSlots initial_input_content) k inv svc2 ha hsucc hout hnext
    refine ⟨hlen, ?_⟩
    show assembleResult vs
      (runSteps (mainCtx env user_request) vs 0 (textSlots initial_input_content)).1 = _
    rw [hres]
    rfl

/-- C6 (amended) witness: the silent first step of `noOutEnv`. -/
theorem chain_missing_output_aborts_witness :
    (run_pipeline noOutEnv "r" (some "text") none).invocations.length = 0 + 1 ∧
    (run_pipeline noOutEnv "r" (some "text") none).result =
      (none, some ("Pipeline failed: " ++ ("Input file \x27" ++ noOutEnv.temp_dir ++
        "/input.txt\x27 missing for step " ++ "translator-service" ++
        ". Expected output from previous step."))) :=
  chain_missing_output_aborts noOutEnv "r" (some "text") none 0
    ((run_pipeline noOutEnv "r" (some "text") none).invocations.getD 0 invDefault)
    "translator-service" (by decide) (by decide) (by decide) (by decide)

/-- C10: `pdf-reader-service` is not a key of the registry, so it never
survives validation, the first-step-is-PDF test is always false, the PDF
staging branch and its missing-PDF `ValueError` are unreachable, and the
initial artifact is always staged as a text file whose content defaults
to the empty string. -/
theorem pdf_reader_unreachable (env : PipelineEnv) (req : String) (c p : Option String) :
    SERVICE_INFO.lookup "pdf-reader-service" = none ∧
    (∀ plan : List String, "pdf-reader-service" ∉ plan.filter knownService) ∧
    (run_pipeline env req c p).is_first_step_pdf = false ∧
    (run_pipeline env req c p).pdf_copied = false ∧
    (run_pipeline env req c p).pdf_error_raised = false ∧
    (∀ inv, (run_pipeline env req c p).invocations.head? = some inv →
      inv.slots_before.input_pdf = none ∧
      inv.slots_before.input_txt = some (c.getD "")) := by
  have hflags :
      (run_pipeline env req c p).is_first_step_pdf = false ∧
      (run_pipeline env req c p).pdf_copied = false ∧
      (run_pipeline env req c p).pdf_error_raised = false := by
    rcases run_pipeline_cases_resolved env req c p with ⟨msg, h⟩ | ⟨vs, _, _, h⟩ <;>
      rw [h] <;> exact ⟨rfl, rfl, rfl⟩
  refine ⟨by decide, ?_, hflags.1, hflags.2.1, hflags.2.2, ?_⟩
  · intro plan hmem
    have hk := (List.mem_filter.mp hmem).2
    rw [knownService_pdf_reader] at hk
    cases hk
  · intro inv hhead
    rcases run_pipeline_cases_resolved env req c p with ⟨msg, h⟩ | ⟨vs, _, _, h⟩
    · rw [h] at hhead
      cases hhead
    · rw [h] at hhead
      obtain ⟨svc, rest, slots1, hsteps, hc, _, hsb, _, _⟩ :=
        runSteps_head (mainCtx env req) vs 0 (textSlots c) inv hhead
      have hzero : chainInput (mainCtx env req) svc 0 (textSlots c) = .ok (textSlots c) :=
        chainInput_zero_no_output (mainCtx env req) svc (textSlots c) rfl
      have hslots1 : slots1 = textSlots c := (Except.ok.inj (hzero.symm.trans hc)).symm
      rw [hsb, hslots1]
      exact ⟨rfl, by rw [show (textSlots c).input_txt = some (initialText c) from rfl,
        initialText_eq_getD]⟩

/-- C10 witness: the registry lookup and the staging of a concrete run. -/
theorem pdf_reader_unreachable_witness :
    SERVICE_INFO.lookup "pdf-reader-service" = none ∧
    (run_pipeline baseEnv "r" (some "text") none).is_first_step_pdf = false ∧
    (run_pipeline baseEnv "r" (some "text") none).pdf_error_raised = false ∧
    ((run_pipeline baseEnv "r" (some "text") none).invocations.getD 0
      invDefault).slots_before.input_pdf = none := by
  have h := pdf_reader_unreachable baseEnv "r" (some "text") none
  exact ⟨h.1, h.2.2.1, h.2.2.2.2.1,
    (h.2.2.2.2.2 ((run_pipeline baseEnv "r" (some "text") none).invocations.getD 0
      invDefault) (by decide)).1⟩

end Orch
